import Mathlib

/-!
Shallow embedding of the booking form hook of the cal.com Booker
(useBookingForm): route selection between the single, recurring and
instant creation paths, duration resolution, metadata extraction from
query parameters, the mutation success and error handlers, and the
gate of the instant booking poller.
-/

/-- JS truthiness of an optional number: null and 0 are falsy. -/
def jsTruthyNat : Option Nat → Bool
  | none => false
  | some n => n != 0

/-- JS truthiness of an optional string: null and the empty string are falsy. -/
def jsTruthyStr : Option String → Bool
  | none => false
  | some s => s != ""

/-- JS fallback `a || b` for an optional string with a string default. -/
def jsOrString (a : Option String) (b : String) : String :=
  match a with
  | some s => if s = "" then b else s
  | none => b

/-- JS fallback `a || b` for an optional number with a number default. -/
def jsOrNat (a : Option Nat) (b : Nat) : Nat :=
  match a with
  | some n => if n = 0 then b else n
  | none => b

/-- The slice of loaded event data read by handleBookEvent: the dynamic
flag, the configured length, the optional allowed duration list
(metadata. multipleDuration) and the recurrence frequency
(recurringEvent freq, absent when the event has no recurring policy). -/
structure EventData where
  isDynamic : Bool
  length : Nat
  multipleDuration : Option (List Nat)
  recurringFreq : Option Nat
  deriving DecidableEq, Repr

/-- Duration resolution in handleBookEvent: dynamic events use
`duration || event.data.length`; other events use the selection only when
it is truthy and contained in metadata. multipleDuration, else the event
length. -/
def validDuration (ev : EventData) (duration : Option Nat) : Nat :=
  if ev.isDynamic then
    jsOrNat duration ev.length
  else
    match duration with
    | some d =>
        if d != 0 && ev.multipleDuration.elim false (fun ds => ds.contains d) then d
        else ev.length
    | none => ev.length

/-- JS String substring: both indices are clamped to the string length and
swapped when the start exceeds the end. -/
def jsSubstring (s : String) (a b : Nat) : String :=
  let a2 := min a s.length
  let b2 := min b s.length
  String.mk ((s.toList.drop (min a2 b2)).take (max a2 b2 - min a2 b2))

/-- JS String startsWith, computed over the character lists. -/
def jsStartsWith (s p : String) : Bool :=
  s.toList.take p.length == p.toList

/-- The entry name derived from a metadata query key in handleBookEvent:
the substring from index 9 (the length of the string "metadata[") to the
index before the last character. -/
def metadataKeyName (k : String) : String :=
  jsSubstring k 9 (k.length - 1)

/-- JS object spread update: replaces the value of an existing key in
place, otherwise appends the new pair at the end. -/
def jsObjectSet (m : List (String × Option String)) (k : String) (v : Option String) :
    List (String × Option String) :=
  if m.any (fun kv => kv.1 == k) then
    m.map (fun kv => if kv.1 == k then (k, v) else kv)
  else m ++ [(k, v)]

/-- Metadata extraction in handleBookEvent: the keys of the router query
that start with "metadata" are folded into a flat object whose entry name
is metadataKeyName of the key and whose value is the searchParams lookup
of the key (modelled as lookup in the same query list). -/
def extractMetadata (query : List (String × String)) : List (String × Option String) :=
  ((query.map Prod.fst).filter (fun k => jsStartsWith k "metadata")).foldl
    (fun m k => jsObjectSet m (metadataKeyName k) (query.lookup k)) []

/-- The three creation paths a submission can dispatch to. -/
inductive Route where
  | instant
  | recurring
  | single
  deriving DecidableEq, Repr

/-- The ordered route choice of handleBookEvent: instant when
isInstantMeeting holds, else recurring when recurringEvent freq,
recurringEventCount and the absence of rescheduleUid are all truthy,
else single. -/
def selectRoute (isInstantMeeting : Bool) (recurringFreq : Option Nat)
    (recurringEventCount : Option Nat) (rescheduleUid : Option String) : Route :=
  if isInstantMeeting then Route.instant
  else if jsTruthyNat recurringFreq && jsTruthyNat recurringEventCount &&
      !jsTruthyStr rescheduleUid then Route.recurring
  else Route.single

/-- The booking input snapshot assembled by handleBookEvent before the
creation call is dispatched. -/
structure BookingInput where
  values : List (String × String)
  duration : Nat
  date : String
  timeZone : String
  language : String
  rescheduleUid : Option String
  bookingUid : Option String
  username : String
  metadata : List (String × Option String)
  hashedLink : Option String
  deriving DecidableEq, Repr

/-- The query object handed to bookingSuccessRedirect. -/
structure RedirectQuery where
  isSuccessBookingPage : Bool
  email : String
  eventTypeSlug : Option String
  seatReferenceUid : Option String
  allRemainingBookings : Option Bool
  formerTime : Option String
  deriving DecidableEq, Repr

/-- Observable steps taken by handleBookEvent and by the mutation
handlers: store and form mutations, the creation dispatch, navigation,
logging and error surfacing. -/
inductive Act where
  | setStoreFormValues (values : List (String × String))
  | clearFormErrors
  | setGlobalError (msg : String)
  | setResponses (values : List (String × String))
  | dispatch (r : Route) (input : BookingInput)
  | pushPaymentLink (paymentUid : String) (date : Option String) (name : String) (email : String)
  | routerPush (url : String)
  | successRedirect (successRedirectUrl : String) (query : RedirectQuery) (bookingUid : Option String)
  | consoleError (msg : String)
  | toastError (msg : String)
  | scrollErrorIntoView
  deriving DecidableEq, Repr

/-- The store and form state handleBookEvent reads when composing a
booking request. -/
structure BookerState where
  timeslot : Option String
  eventData : Option EventData
  isInstantMeeting : Bool
  recurringEventCount : Option Nat
  rescheduleUid : Option String
  selectedDuration : Option Nat
  routerQuery : List (String × String)
  timezone : String
  language : String
  username : Option String
  bookingDataUid : Option String
  seatedBookingUid : Option String
  hashedLink : Option String
  responses : List (String × String)
  deriving DecidableEq, Repr

/-- The bookingInput object literal built inside handleBookEvent. -/
def mkBookingInput (s : BookerState) (ev : EventData) (ts : String) : BookingInput :=
  { values := s.responses
    duration := validDuration ev s.selectedDuration
    date := ts
    timeZone := s.timezone
    language := s.language
    rescheduleUid := if jsTruthyStr s.rescheduleUid then s.rescheduleUid else none
    bookingUid :=
      if jsTruthyStr s.bookingDataUid then s.bookingDataUid
      else if jsTruthyStr s.seatedBookingUid then s.seatedBookingUid
      else none
    username := jsOrString s.username ""
    metadata := extractMetadata s.routerQuery
    hashedLink := s.hashedLink }

/-- handleBookEvent: a no-op without a timeslot; otherwise clears the store
form value cache and the form errors, sets the global error and stops when
event data is missing, and otherwise dispatches exactly one creation call
on the selected route, clearing the cache and the errors once more
afterwards. -/
def handleBookEvent (s : BookerState) : List Act :=
  match s.timeslot with
  | none => []
  | some ts =>
      Act.setStoreFormValues [] :: Act.clearFormErrors ::
        (match s.eventData with
         | none => [Act.setGlobalError "error_booking_event"]
         | some ev =>
             [Act.dispatch
                (selectRoute s.isInstantMeeting ev.recurringFreq s.recurringEventCount
                  s.rescheduleUid)
                (mkBookingInput s ev ts),
              Act.setStoreFormValues [], Act.clearFormErrors])

/-- The result shape of createBooking. -/
structure SingleResponse where
  uid : Option String
  paymentUid : Option String
  seatReferenceUid : Option String
  deriving DecidableEq, Repr

/-- One occurrence in the result of createRecurringBooking. -/
structure RecurringBookingResp where
  uid : Option String
  startTime : Option String
  deriving DecidableEq, Repr

/-- The first element of the recurring result, defaulting to an empty
object as in `responseData[0] || ...`. -/
def headRecurringBooking (resps : List RecurringBookingResp) : RecurringBookingResp :=
  resps.head?.getD ⟨none, none⟩

/-- The payment link push at the start of the createBookingMutation
success handler, recording the arguments passed to createPaymentLink. -/
def paymentPushActs (paymentUid : Option String) (date : Option String)
    (name email : String) : List Act :=
  match paymentUid with
  | some p => if p != "" then [Act.pushPaymentLink p date name email] else []
  | none => []

/-- Success handler of createBookingMutation: pushes the payment link when
a payment uid is present (without returning), then logs and stops when the
uid is not usable, else dispatches the success redirect. -/
def singleOnSuccess (resp : SingleResponse) (fullName email : String)
    (timeslot : Option String) (eventSlug : Option String)
    (successRedirectUrl : Option String) (isRescheduling : Bool)
    (bookingDataStartTime : Option String) : List Act :=
  paymentPushActs resp.paymentUid timeslot fullName email ++
    (if jsTruthyStr resp.uid = false then
      [Act.consoleError "No uid returned from createBookingMutation"]
    else
      [Act.successRedirect (jsOrString successRedirectUrl "")
        { isSuccessBookingPage := true
          email := email
          eventTypeSlug := eventSlug
          seatReferenceUid := resp.seatReferenceUid
          allRemainingBookings := none
          formerTime :=
            if isRescheduling && jsTruthyStr bookingDataStartTime then bookingDataStartTime
            else none }
        resp.uid])

/-- Error handler of createBookingMutation: only scrolls the error surface
into view. -/
def singleOnError : List Act :=
  [Act.scrollErrorIntoView]

/-- Success handler of createRecurringBookingMutation: logs and stops when
the first occurrence lacks a usable uid, else dispatches the success
redirect with allRemainingBookings set. -/
def recurringOnSuccess (resps : List RecurringBookingResp) (email : String)
    (eventSlug : Option String) (successRedirectUrl : Option String)
    (isRescheduling : Bool) (bookingDataStartTime : Option String) : List Act :=
  let booking := headRecurringBooking resps
  if jsTruthyStr booking.uid = false then
    [Act.consoleError "No uid returned from createRecurringBookingMutation"]
  else
    [Act.successRedirect (jsOrString successRedirectUrl "")
      { isSuccessBookingPage := true
        email := email
        eventTypeSlug := eventSlug
        seatReferenceUid := none
        allRemainingBookings := some true
        formerTime :=
          if isRescheduling && jsTruthyStr bookingDataStartTime then bookingDataStartTime
          else none }
      booking.uid]

/-- createRecurringBookingMutation registers no error handler, so a
rejected recurring creation call triggers no observable step here. -/
def recurringOnError : List Act :=
  []

/-- Error handler of createInstantBookingMutation: logs and scrolls the
error surface into view. -/
def instantOnError : List Act :=
  [Act.consoleError "Error creating instant booking", Act.scrollErrorIntoView]

/-- Outcome of running bookingMetadataSchema on a metadata payload:
either the parse throws or it yields an optional video call url. -/
inductive MetadataParse where
  | malformed
  | parsed (videoCallUrl : Option String)
  deriving DecidableEq, Repr

/-- The booking object of a poll response. -/
structure PollBooking where
  metadata : Option MetadataParse
  deriving DecidableEq, Repr

/-- A getInstantBookingLocation poll response. -/
structure PollData where
  booking : Option PollBooking
  deriving DecidableEq, Repr

/-- Success handler of the instant booking location query: shows the error
toast unconditionally at the top of the try block, then parses the
metadata, navigating when a video call url is present and showing the
error toast again otherwise, with the catch branch also showing the error
toast. -/
def instantPollOnSuccess (data : PollData) : List Act :=
  let meta := (data.booking.bind PollBooking.metadata).getD (MetadataParse.parsed none)
  Act.toastError "something_went_wrong_on_our_end" ::
    (match meta with
     | MetadataParse.malformed => [Act.toastError "something_went_wrong_on_our_end"]
     | MetadataParse.parsed url =>
         match url with
         | some u =>
             if u != "" then [Act.routerPush u]
             else [Act.toastError "something_went_wrong_on_our_end"]
         | none => [Act.toastError "something_went_wrong_on_our_end"])

/-- State read by the instant booking poller: the bookingId parsed from
the query string (0 when absent), the stored expiry time and the current
time, as timestamps. -/
structure PollState where
  bookingId : Nat
  expiryTime : Option Int
  now : Int
  deriving DecidableEq, Repr

/-- The expiry check of the hook: truthy expiry time strictly before the
current time. -/
def hasInstantMeetingTokenExpired (st : PollState) : Bool :=
  match st.expiryTime with
  | some e => decide (e < st.now)
  | none => false

/-- The enabled condition of the getInstantBookingLocation query: a truthy
bookingId and a token that has not expired. -/
def pollEnabled (st : PollState) : Bool :=
  (st.bookingId != 0) && !hasInstantMeetingTokenExpired st

/-- Delivery of a poll payload: the success handler runs only while the
activation condition of the query holds; a payload arriving in a state
where the condition fails is discarded. -/
def deliverPoll (st : PollState) (data : PollData) : List Act :=
  if pollEnabled st then instantPollOnSuccess data else []

/-- The session scoped form state: the form response values, the store
level form value cache and the form errors. -/
structure FormState where
  responses : List (String × String)
  storeFormValues : List (String × String)
  formErrors : List (String × String)
  deriving DecidableEq, Repr

/-- Effect of one observable step on the form state: store writes, error
clears, global error writes and user response edits change it; dispatch,
navigation, logging, toasts and scrolling leave it unchanged. -/
def applyAct (st : FormState) : Act → FormState
  | Act.setStoreFormValues vs => { st with storeFormValues := vs }
  | Act.clearFormErrors => { st with formErrors := [] }
  | Act.setGlobalError m => { st with formErrors := st.formErrors ++ [("globalError", m)] }
  | Act.setResponses vs => { st with responses := vs }
  | _ => st

/-- Folds a list of steps over the form state. -/
def applyActs (st : FormState) (as : List Act) : FormState :=
  as.foldl applyAct st

/-- The routes of the creation calls dispatched in a step list. -/
def dispatchedRoutes (as : List Act) : List Route :=
  as.filterMap fun a =>
    match a with
    | Act.dispatch r _ => some r
    | _ => none

/-- Whether a step list dispatches a success redirect. -/
def hasSuccessRedirect (as : List Act) : Bool :=
  as.any fun a =>
    match a with
    | Act.successRedirect _ _ _ => true
    | _ => false

/-- Whether a step list logs to the console. -/
def hasConsoleError (as : List Act) : Bool :=
  as.any fun a =>
    match a with
    | Act.consoleError _ => true
    | _ => false

/-- Whether a step list scrolls the error surface into view. -/
def hasScroll (as : List Act) : Bool :=
  as.any fun a =>
    match a with
    | Act.scrollErrorIntoView => true
    | _ => false

/-- Whether a step list surfaces an error toast. -/
def hasToastError (as : List Act) : Bool :=
  as.any fun a =>
    match a with
    | Act.toastError _ => true
    | _ => false

/-- Whether a step list navigates through a plain router push. -/
def hasRouterPush (as : List Act) : Bool :=
  as.any fun a =>
    match a with
    | Act.routerPush _ => true
    | _ => false

/-- Whether a step list pushes a payment link. -/
def hasPaymentPush (as : List Act) : Bool :=
  as.any fun a =>
    match a with
    | Act.pushPaymentLink _ _ _ _ => true
    | _ => false

/-- The aggregated error flag of the hook: any of the three mutation
errors or the global form error. -/
def hasFormErrors (singleErr recurringErr instantErr globalErr : Bool) : Bool :=
  singleErr || recurringErr || instantErr || globalErr

/-- Restatement of the amended duration policy in the order the amended
claim states it: a selected 0 counts as no selection; otherwise dynamic
events honor the selection, and non dynamic events honor it exactly when
it belongs to the allowed duration list, defaulting to the event length. -/
def durationPolicySpec (ev : EventData) (duration : Option Nat) : Nat :=
  match duration with
  | none => ev.length
  | some n =>
      if n = 0 then ev.length
      else if ev.isDynamic then n
      else if ev.multipleDuration.elim false (fun ds => ds.contains n) then n
      else ev.length

/-- Every entry of a jsObjectSet result is an entry of the input object or
the inserted pair. -/
theorem mem_jsObjectSet {m : List (String × Option String)} {k : String}
    {v : Option String} {entry : String × Option String}
    (h : entry ∈ jsObjectSet m k v) : entry ∈ m ∨ entry = (k, v) := by
  unfold jsObjectSet at h
  split at h
  · rcases List.mem_map.mp h with ⟨kv, hkv, heq⟩
    split at heq
    · exact Or.inr heq.symm
    · exact Or.inl (heq ▸ hkv)
  · rcases List.mem_append.mp h with h1 | h1
    · exact Or.inl h1
    · simp only [List.mem_singleton] at h1
      exact Or.inr h1

/-- Every entry of a jsObjectSet fold originates from the accumulator or
from one of the folded keys. -/
theorem mem_foldl_jsObjectSet (f : String → String) (g : String → Option String) :
    ∀ (keys : List String) (acc : List (String × Option String))
      (entry : String × Option String),
      entry ∈ keys.foldl (fun m k => jsObjectSet m (f k) (g k)) acc →
      entry ∈ acc ∨ ∃ k, k ∈ keys ∧ entry = (f k, g k) := by
  intro keys
  induction keys with
  | nil => intro acc entry h; exact Or.inl h
  | cons k ks ih =>
      intro acc entry h
      rcases ih _ entry h with h1 | ⟨k2, hk2, he⟩
      · rcases mem_jsObjectSet h1 with h2 | h2
        · exact Or.inl h2
        · exact Or.inr ⟨k, List.mem_cons_self k ks, h2⟩
      · exact Or.inr ⟨k2, List.mem_cons_of_mem _ hk2, he⟩

/-- The payment link push never scrolls the error surface. -/
theorem hasScroll_paymentPushActs (pu d : Option String) (n e : String) :
    hasScroll (paymentPushActs pu d n e) = false := by
  cases pu with
  | none => rfl
  | some p =>
      simp only [paymentPushActs]
      split <;> rfl

/-- The payment link push never logs to the console. -/
theorem hasConsoleError_paymentPushActs (pu d : Option String) (n e : String) :
    hasConsoleError (paymentPushActs pu d n e) = false := by
  cases pu with
  | none => rfl
  | some p =>
      simp only [paymentPushActs]
      split <;> rfl

/-- The payment link push never dispatches a success redirect. -/
theorem hasSuccessRedirect_paymentPushActs (pu d : Option String) (n e : String) :
    hasSuccessRedirect (paymentPushActs pu d n e) = false := by
  cases pu with
  | none => rfl
  | some p =>
      simp only [paymentPushActs]
      split <;> rfl

/-- hasScroll distributes over append. -/
theorem hasScroll_append (a b : List Act) :
    hasScroll (a ++ b) = (hasScroll a || hasScroll b) := by
  simp [hasScroll]

/-- hasConsoleError distributes over append. -/
theorem hasConsoleError_append (a b : List Act) :
    hasConsoleError (a ++ b) = (hasConsoleError a || hasConsoleError b) := by
  simp [hasConsoleError]

/-- hasSuccessRedirect distributes over append. -/
theorem hasSuccessRedirect_append (a b : List Act) :
    hasSuccessRedirect (a ++ b) = (hasSuccessRedirect a || hasSuccessRedirect b) := by
  simp [hasSuccessRedirect]

/-- hasToastError distributes over append. -/
theorem hasToastError_append (a b : List Act) :
    hasToastError (a ++ b) = (hasToastError a || hasToastError b) := by
  simp [hasToastError]

/-- The payment link push never surfaces a toast. -/
theorem hasToastError_paymentPushActs (pu d : Option String) (n e : String) :
    hasToastError (paymentPushActs pu d n e) = false := by
  cases pu with
  | none => rfl
  | some p =>
      simp only [paymentPushActs]
      split <;> rfl

/-- C1: with a selected timeslot and loaded event data, handleBookEvent
dispatches exactly one creation call, whose route follows the ordered
choice of the claim: instant whenever the instant meeting flag is set
(regardless of the recurrence configuration), else recurring when the
recurrence frequency and the recurrence count are truthy and there is no
reschedule uid, else single; the three outcomes are mutually exclusive
because the dispatched route list is a singleton. -/
theorem c1_route_selection (ts : String) (ev : EventData) (iim : Bool)
    (cnt : Option Nat) (ruid : Option String) (dur : Option Nat)
    (q : List (String × String)) (tz lang : String)
    (un bdu sbu hl : Option String) (resp : List (String × String)) :
    dispatchedRoutes (handleBookEvent
        ⟨some ts, some ev, iim, cnt, ruid, dur, q, tz, lang, un, bdu, sbu, hl, resp⟩) =
      [selectRoute iim ev.recurringFreq cnt ruid] ∧
    (iim = true → selectRoute iim ev.recurringFreq cnt ruid = Route.instant) ∧
    (iim = false → jsTruthyNat ev.recurringFreq = true → jsTruthyNat cnt = true →
      jsTruthyStr ruid = false →
      selectRoute iim ev.recurringFreq cnt ruid = Route.recurring) ∧
    (iim = false →
      (jsTruthyNat ev.recurringFreq && jsTruthyNat cnt && !jsTruthyStr ruid) = false →
      selectRoute iim ev.recurringFreq cnt ruid = Route.single) := by
  refine ⟨rfl, ?_, ?_, ?_⟩
  · intro h
    simp [selectRoute, h]
  · intro h h1 h2 h3
    simp [selectRoute, h, h1, h2, h3]
  · intro h h1
    simp [selectRoute, h, h1]

/-- Witness for C1: a concrete instant meeting submission that also has a
full recurrence configuration still dispatches exactly the instant path. -/
theorem c1_route_selection_witness :
    dispatchedRoutes (handleBookEvent
        ⟨some "2024-05-01T10:00:00Z", some ⟨false, 30, none, some 2⟩, true, some 3, none,
          none, [], "Europe/Berlin", "en", none, none, none, none, []⟩) = [Route.instant] := by
  have h := c1_route_selection "2024-05-01T10:00:00Z" ⟨false, 30, none, some 2⟩ true (some 3)
    none none [] "Europe/Berlin" "en" none none none none []
  rw [h.1, h.2.1 rfl]

/-- C2 counterexample: for a dynamic event of length 30 a selected
duration of 0 resolves to 30, not to the selected duration, because the
source computes the disjunction of the selection with the event length
and 0 is falsy in JS. -/
theorem c2_zero_duration_counterexample :
    validDuration ⟨true, 30, none, none⟩ (some 0) = 30 ∧
    validDuration ⟨true, 30, none, none⟩ (some 0) ≠ 0 := by
  exact ⟨rfl, by decide⟩

/-- C2 (amended): duration resolution agrees everywhere with the amended
policy: a selected duration of 0 is treated as no selection; any other
selection is honored on dynamic events, and on non dynamic events exactly
when it belongs to the allowed duration list; in every remaining case the
resolved duration is the event length. -/
theorem c2_duration_resolution_amended (ev : EventData) (duration : Option Nat) :
    validDuration ev duration = durationPolicySpec ev duration := by
  cases duration with
  | none => cases h : ev.isDynamic <;> simp [validDuration, durationPolicySpec, jsOrNat, h]
  | some n =>
      by_cases hn : n = 0
      · subst hn
        cases h : ev.isDynamic <;>
          simp [validDuration, durationPolicySpec, jsOrNat, h]
      · cases h : ev.isDynamic <;>
          cases hc : ev.multipleDuration.elim false (fun ds => ds.contains n) <;>
          simp [validDuration, durationPolicySpec, jsOrNat, h, hn, hc]

/-- C3: once the stored expiry time lies strictly in the past, the
expiry flag holds, the activation condition of the poll query fails, and
a successful poll payload delivered in such a state produces no step at
all, in particular no navigation. -/
theorem c3_expiry_stops_poll (st : PollState) (e : Int)
    (h1 : st.expiryTime = some e) (h2 : e < st.now) :
    hasInstantMeetingTokenExpired st = true ∧
    pollEnabled st = false ∧
    ∀ data : PollData, deliverPoll st data = [] := by
  have hx : hasInstantMeetingTokenExpired st = true := by
    simp [hasInstantMeetingTokenExpired, h1, h2]
  refine ⟨hx, ?_, ?_⟩
  · simp [pollEnabled, hx]
  · intro data
    simp [deliverPoll, pollEnabled, hx]

/-- Witness for C3: with expiry one unit before the current time, a poll
payload that does carry a valid video call url is discarded. -/
theorem c3_expiry_stops_poll_witness :
    pollEnabled ⟨7, some 0, 1⟩ = false ∧
    deliverPoll ⟨7, some 0, 1⟩
      ⟨some ⟨some (MetadataParse.parsed (some "https://cal.example/video/abc"))⟩⟩ = [] := by
  have h := c3_expiry_stops_poll ⟨7, some 0, 1⟩ 0 rfl (by decide)
  exact ⟨h.2.1, h.2.2 _⟩

/-- C4: a recurring creation result with an empty occurrence list, or
whose first occurrence lacks a usable uid, only logs to the console and
dispatches no success redirect. -/
theorem c4_recurring_empty_no_redirect (resps : List RecurringBookingResp)
    (email : String) (slug url ft : Option String) (resched : Bool)
    (h : resps = [] ∨ jsTruthyStr (headRecurringBooking resps).uid = false) :
    recurringOnSuccess resps email slug url resched ft =
      [Act.consoleError "No uid returned from createRecurringBookingMutation"] ∧
    hasSuccessRedirect (recurringOnSuccess resps email slug url resched ft) = false := by
  have hu : jsTruthyStr (headRecurringBooking resps).uid = false := by
    rcases h with h | h
    · subst h; rfl
    · exact h
  have h1 : recurringOnSuccess resps email slug url resched ft =
      [Act.consoleError "No uid returned from createRecurringBookingMutation"] := by
    simp [recurringOnSuccess, hu]
  exact ⟨h1, by rw [h1]; rfl⟩

/-- Witness for C4: the empty recurring result is handled as a failure. -/
theorem c4_recurring_empty_no_redirect_witness :
    recurringOnSuccess [] "ada@example.org" none none false none =
      [Act.consoleError "No uid returned from createRecurringBookingMutation"] ∧
    hasSuccessRedirect (recurringOnSuccess [] "ada@example.org" none none false none) = false :=
  c4_recurring_empty_no_redirect [] "ada@example.org" none none none false (Or.inl rfl)

/-- C5 (code bug): on a poll response whose metadata carries a valid video
call url the success handler still surfaces the error toast, because the
first line of its try block shows the toast unconditionally before the
payload is parsed; it then navigates, so the error is surfaced on a fully
valid response, contradicting the claim. -/
theorem c5_toast_on_valid_url_bug :
    instantPollOnSuccess
        ⟨some ⟨some (MetadataParse.parsed (some "https://cal.example/video/abc"))⟩⟩ =
      [Act.toastError "something_went_wrong_on_our_end",
       Act.routerPush "https://cal.example/video/abc"] ∧
    hasToastError (instantPollOnSuccess
        ⟨some ⟨some (MetadataParse.parsed (some "https://cal.example/video/abc"))⟩⟩) = true ∧
    hasRouterPush (instantPollOnSuccess
        ⟨some ⟨some (MetadataParse.parsed (some "https://cal.example/video/abc"))⟩⟩) = true := by
  refine ⟨rfl, rfl, rfl⟩

/-- C6 (code bug): a single creation result carrying both a payment uid
and a usable uid issues the payment link push and then also dispatches
the normal success redirect, because the payment branch of the success
handler does not return before the redirect code runs. -/
theorem c6_redirect_alongside_payment_bug :
    hasPaymentPush (singleOnSuccess ⟨some "abc", some "pay_1", none⟩ "Jane Roe"
        "jane@example.org" (some "2024-05-01T10:00:00Z") (some "meeting") none false none) =
      true ∧
    hasSuccessRedirect (singleOnSuccess ⟨some "abc", some "pay_1", none⟩ "Jane Roe"
        "jane@example.org" (some "2024-05-01T10:00:00Z") (some "meeting") none false none) =
      true ∧
    singleOnSuccess ⟨some "abc", some "pay_1", none⟩ "Jane Roe" "jane@example.org"
        (some "2024-05-01T10:00:00Z") (some "meeting") none false none =
      [Act.pushPaymentLink "pay_1" (some "2024-05-01T10:00:00Z") "Jane Roe" "jane@example.org",
       Act.successRedirect ""
         { isSuccessBookingPage := true
           email := "jane@example.org"
           eventTypeSlug := some "meeting"
           seatReferenceUid := none
           allRemainingBookings := none
           formerTime := none }
         (some "abc")] := by
  refine ⟨rfl, rfl, rfl⟩

/-- C7 counterexample: the recurring creation mutation registers no error
handler, so a transport failure on the recurring path neither logs nor
scrolls the error surface into view, and the error handler of the single
path scrolls without logging; both refute the claim that every failing
creation attempt is logged and scrolled on all three paths. -/
theorem c7_recurring_failure_counterexample :
    recurringOnError = ([] : List Act) ∧
    hasConsoleError recurringOnError = false ∧
    hasScroll recurringOnError = false ∧
    hasConsoleError singleOnError = false := by
  refine ⟨rfl, rfl, rfl, rfl⟩

/-- C7 (amended): failure handling is path specific: a transport failure
scrolls the error surface without logging on the single path, logs and
scrolls on the instant path, and does nothing on the recurring path; a
result lacking a usable identifier is logged on the single and recurring
paths without scrolling and without a redirect; and any recurring
mutation error still surfaces through the aggregated form error flag. -/
theorem c7_failure_handling_amended (resp : SingleResponse) (fullName email : String)
    (ts slug url ft : Option String) (resched : Bool)
    (resps : List RecurringBookingResp) (email2 : String) (slug2 url2 ft2 : Option String)
    (resched2 : Bool) (g : Bool)
    (hu : jsTruthyStr resp.uid = false)
    (hru : jsTruthyStr (headRecurringBooking resps).uid = false) :
    singleOnError = [Act.scrollErrorIntoView] ∧
    hasConsoleError singleOnError = false ∧
    instantOnError = [Act.consoleError "Error creating instant booking",
      Act.scrollErrorIntoView] ∧
    recurringOnError = [] ∧
    hasConsoleError (singleOnSuccess resp fullName email ts slug url resched ft) = true ∧
    hasScroll (singleOnSuccess resp fullName email ts slug url resched ft) = false ∧
    hasSuccessRedirect (singleOnSuccess resp fullName email ts slug url resched ft) = false ∧
    recurringOnSuccess resps email2 slug2 url2 resched2 ft2 =
      [Act.consoleError "No uid returned from createRecurringBookingMutation"] ∧
    hasFormErrors false true false g = true := by
  have hs : singleOnSuccess resp fullName email ts slug url resched ft =
      paymentPushActs resp.paymentUid ts fullName email ++
        [Act.consoleError "No uid returned from createBookingMutation"] := by
    simp [singleOnSuccess, hu]
  refine ⟨rfl, rfl, rfl, rfl, ?_, ?_, ?_, ?_, ?_⟩
  · rw [hs, hasConsoleError_append, hasConsoleError_paymentPushActs]
    rfl
  · rw [hs, hasScroll_append, hasScroll_paymentPushActs]
    rfl
  · rw [hs, hasSuccessRedirect_append, hasSuccessRedirect_paymentPushActs]
    rfl
  · simp [recurringOnSuccess, hru]
  · simp [hasFormErrors]

/-- Witness for C7 (amended) at a concrete uid-less single result and an
empty recurring result. -/
theorem c7_failure_handling_amended_witness :
    hasConsoleError (singleOnSuccess ⟨none, none, none⟩ "Ada L" "ada@example.org"
        none none none false none) = true ∧
    hasScroll (singleOnSuccess ⟨none, none, none⟩ "Ada L" "ada@example.org"
        none none none false none) = false ∧
    recurringOnSuccess [] "ada@example.org" none none false none =
      [Act.consoleError "No uid returned from createRecurringBookingMutation"] := by
  have h := c7_failure_handling_amended ⟨none, none, none⟩ "Ada L" "ada@example.org"
    none none none none false [] "ada@example.org" none none none false true rfl rfl
  exact ⟨h.2.2.2.2.1, h.2.2.2.2.2.1, h.2.2.2.2.2.2.2.1⟩

/-- C8: the three failure handlers leave the form response values
untouched, and a submission with a timeslot and loaded event data clears
the store level form value cache and the form errors as its first two
steps, strictly before the creation dispatch, and clears them again after
the dispatch; the state reached just before the dispatch has an empty
cache and no form errors. -/
theorem c8_failure_preserves_form_values (st : FormState) (ts : String) (ev : EventData)
    (iim : Bool) (cnt : Option Nat) (ruid : Option String) (dur : Option Nat)
    (q : List (String × String)) (tz lang : String)
    (un bdu sbu hl : Option String) (resp : List (String × String)) :
    (applyActs st singleOnError).responses = st.responses ∧
    (applyActs st instantOnError).responses = st.responses ∧
    (applyActs st recurringOnError).responses = st.responses ∧
    handleBookEvent ⟨some ts, some ev, iim, cnt, ruid, dur, q, tz, lang, un, bdu, sbu, hl, resp⟩ =
      [Act.setStoreFormValues [], Act.clearFormErrors,
       Act.dispatch (selectRoute iim ev.recurringFreq cnt ruid)
         (mkBookingInput ⟨some ts, some ev, iim, cnt, ruid, dur, q, tz, lang, un, bdu, sbu,
           hl, resp⟩ ev ts),
       Act.setStoreFormValues [], Act.clearFormErrors] ∧
    (applyActs st (List.take 2 (handleBookEvent
        ⟨some ts, some ev, iim, cnt, ruid, dur, q, tz, lang, un, bdu, sbu, hl,
          resp⟩))).storeFormValues = [] ∧
    (applyActs st (List.take 2 (handleBookEvent
        ⟨some ts, some ev, iim, cnt, ruid, dur, q, tz, lang, un, bdu, sbu, hl,
          resp⟩))).formErrors = [] := by
  refine ⟨rfl, rfl, rfl, rfl, rfl, rfl⟩

/-- C9 counterexample: the query key metadataX does not match the bracket
pattern of the claim, yet the extraction maps it, because the source only
tests the key for the prefix string "metadata"; the resulting entry name
X comes from the swapped substring indices. -/
theorem c9_prefix_key_counterexample :
    extractMetadata [("metadataX", "3")] = [("X", some "3")] ∧
    extractMetadata [("metadataX", "3")] ≠ [] := by
  refine ⟨rfl, by decide⟩

/-- C9 (amended): every entry of the extracted metadata originates from a
query key that starts with "metadata" (a prefix test, not a bracket
pattern match), with the entry name given by the substring from index 9
to the index before the last character and the value by the query lookup
of the key; on the concrete claim example the extraction yields exactly
the two bracketed entries and drops the key named other. -/
theorem c9_metadata_extraction_amended (query : List (String × String))
    (entry : String × Option String) (h : entry ∈ extractMetadata query) :
    (∃ k, k ∈ query.map Prod.fst ∧ jsStartsWith k "metadata" = true ∧
      entry = (metadataKeyName k, query.lookup k)) ∧
    extractMetadata [("metadata[a]", "1"), ("metadata[b]", "2"), ("other", "3")] =
      [("a", some "1"), ("b", some "2")] := by
  constructor
  · unfold extractMetadata at h
    rcases mem_foldl_jsObjectSet metadataKeyName (fun k => query.lookup k) _ _ _ h with
      h1 | ⟨k, hk, he⟩
    · simp at h1
    · rcases List.mem_filter.mp hk with ⟨hmem, hpre⟩
      exact ⟨k, hmem, hpre, he⟩
  · rfl

/-- Witness for C9 (amended): the entry produced for the key holding a
bracketed name a originates from that key. -/
theorem c9_metadata_extraction_amended_witness :
    ∃ k, k ∈ ([("metadata[a]", "1")].map Prod.fst) ∧ jsStartsWith k "metadata" = true ∧
      (("a", some "1") : String × Option String) =
        (metadataKeyName k, [("metadata[a]", "1")].lookup k) :=
  (c9_metadata_extraction_amended [("metadata[a]", "1")] ("a", some "1") (by decide)).1

/-- C10: a single creation result with a truthy payment uid but no usable
uid still pushes the payment link (the push precedes the uid check), then
only logs to the console: no success redirect, no toast and no scroll of
the error surface. -/
theorem c10_payment_without_uid (resp : SingleResponse) (fullName email : String)
    (ts slug url ft : Option String) (resched : Bool) (p : String)
    (hp : resp.paymentUid = some p) (hpn : p ≠ "")
    (hu : jsTruthyStr resp.uid = false) :
    singleOnSuccess resp fullName email ts slug url resched ft =
      [Act.pushPaymentLink p ts fullName email,
       Act.consoleError "No uid returned from createBookingMutation"] ∧
    hasSuccessRedirect (singleOnSuccess resp fullName email ts slug url resched ft) = false ∧
    hasToastError (singleOnSuccess resp fullName email ts slug url resched ft) = false ∧
    hasScroll (singleOnSuccess resp fullName email ts slug url resched ft) = false := by
  have h1 : singleOnSuccess resp fullName email ts slug url resched ft =
      [Act.pushPaymentLink p ts fullName email,
       Act.consoleError "No uid returned from createBookingMutation"] := by
    simp [singleOnSuccess, paymentPushActs, hp, hu, hpn]
  refine ⟨h1, ?_, ?_, ?_⟩ <;> rw [h1] <;> rfl

/-- Witness for C10: a concrete result with a payment uid and a null uid
pushes the payment link and logs, with no redirect. -/
theorem c10_payment_without_uid_witness :
    singleOnSuccess ⟨none, some "pay_1", none⟩ "Jane Roe" "jane@example.org"
        (some "2024-05-01T10:00:00Z") (some "meeting") none false none =
      [Act.pushPaymentLink "pay_1" (some "2024-05-01T10:00:00Z") "Jane Roe" "jane@example.org",
       Act.consoleError "No uid returned from createBookingMutation"] ∧
    hasSuccessRedirect (singleOnSuccess ⟨none, some "pay_1", none⟩ "Jane Roe"
        "jane@example.org" (some "2024-05-01T10:00:00Z") (some "meeting") none false none) =
      false := by
  have h := c10_payment_without_uid ⟨none, some "pay_1", none⟩ "Jane Roe" "jane@example.org"
    (some "2024-05-01T10:00:00Z") (some "meeting") none none false "pay_1" rfl
    (by decide) rfl
  exact ⟨h.1, h.2.1⟩
